import Mathlib

/-!
Verification of the credential hashing and authentication logic of the
mongoose-plugin-auth plugin (src/auth.js, first module version).

The embedding models the plugin's operations over an explicit user-document
record. JavaScript values that may be `undefined` or `null` are modelled with
`JSVal` (for raw arguments) and `Option String` (for document paths, where
`none` models an unset / `undefined` path). The crypto primitive
`crypto.pbkdf2` is a parameter `kdf` of every operation: a deterministic
function from (passphrase, salt, iterations, keylen) to either an error or a
list of raw bytes, exactly the callback contract the source relies on. The
result of `crypto.randomBytes` is likewise passed in as an
`Except JsError (List (Fin 256))`. The configured encoding is the default
`hex`, modelled by `bytesToHex`.
-/

/-- A JavaScript value as passed for a passphrase or username argument:
`undefined`, `null`, or a string. -/
inductive JSVal where
  | undefined : JSVal
  | null : JSVal
  | str (s : String) : JSVal
deriving Repr, DecidableEq

/-- A JavaScript `Error` as used by the plugin: `name`, an optional `path`
(present on mongoose `CastError`s), and `message`. -/
structure JsError where
  name : String
  path : Option String
  message : String
deriving Repr, DecidableEq

/-- `new options.Error(message)` with the default `Error` constructor. -/
def newError (message : String) : JsError :=
  { name := "Error", path := none, message := message }

/-- The `options.hash` configuration (iterations, keylen; encoding is the
default hex, modelled by `bytesToHex`). -/
structure HashConfig where
  iterations : Nat
  keylen : Nat
deriving Repr, DecidableEq

/-- The merged plugin options relevant to the verified operations
(src/auth.js lines 57-95): the username path (needed for the CastError
comparison), the four error messages, the salt length and hash settings. -/
structure AuthOptions where
  usernamePath : String
  usernameMissingError : String
  usernameIncorrectError : String
  passphraseMissingError : String
  passphraseIncorrectError : String
  saltLen : Nat
  hash : HashConfig
deriving Repr, DecidableEq

/-- The defaults merged in src/auth.js lines 57-95. -/
def defaultOptions : AuthOptions :=
  { usernamePath := "username"
    usernameMissingError := "Username was not specified"
    usernameIncorrectError := "Unknown username"
    passphraseMissingError := "Passphrase was not specified"
    passphraseIncorrectError := "Incorrect passphrase"
    saltLen := 32
    hash := { iterations := 25000, keylen := 512 } }

/-- A user document restricted to the paths the plugin touches, plus the
mongoose state flags the pre-validate hook consults (`isNew`,
`isModified(passphrase path)`). `none` models an unset (`undefined`) path. -/
structure UserDoc where
  username : Option String
  passphrase : Option String
  salt : Option String
  isNew : Bool
  isModifiedPassphrase : Bool
deriving Repr, DecidableEq

/-- The hex digit for a value below 16, as produced by Node's hex encoding. -/
def hexDigit (n : Fin 16) : Char :=
  if n.val < 10 then Char.ofNat (48 + n.val) else Char.ofNat (87 + n.val)

/-- The two hex digits of one byte. -/
def byteToHex (b : Fin 256) : List Char :=
  [hexDigit ⟨b.val / 16, by have := b.isLt; omega⟩, hexDigit ⟨b.val % 16, by omega⟩]

/-- `buf.toString('hex')`: the hex encoding of a byte sequence. -/
def bytesToHex (bs : List (Fin 256)) : String :=
  String.mk (List.flatten (List.map byteToHex bs))

/-- The `crypto.pbkdf2` primitive as the source consumes it: from
(passphrase, salt, iterations, keylen) to an error or raw bytes. The salt
argument is `Option String` because the source passes `user.get(salt path)`,
which may be `undefined`. A `Kdf` is a Lean function, hence deterministic. -/
def Kdf : Type :=
  String → Option String → Nat → Nat → Except JsError (List (Fin 256))

/-- The module-level `pbkdf2` helper (src/auth.js lines 375-384): call the
primitive, propagate its error unchanged, otherwise resolve with the raw
bytes re-encoded with the configured (default hex) encoding. -/
def pbkdf2 (kdf : Kdf) (passphrase : String) (salt : Option String)
    (options : AuthOptions) : Except JsError String :=
  match kdf passphrase salt options.hash.iterations options.hash.keylen with
  | Except.error e => Except.error e
  | Except.ok hashRaw => Except.ok (bytesToHex hashRaw)

/-- Outcome of the pre-validate hook: `done u` models `done()` reached with
document state `u`; `error e u` models `done(err)` with the document state at
that point. -/
inductive HookOutcome where
  | done (user : UserDoc) : HookOutcome
  | error (err : JsError) (user : UserDoc) : HookOutcome
deriving Repr, DecidableEq

/-- The `encryptPassphrase` pre-validate hook (src/auth.js lines 109-137).
`randomBytes` is the result `crypto.randomBytes(options.salt.len, ...)`
delivers to its callback. The hook: no-op for an existing document whose
passphrase path is unmodified; no-op when the passphrase path is `undefined`;
otherwise encode the random bytes as the salt, derive the hash, and on
success write hash then salt; any crypto error reaches `done(err)` with the
document untouched. -/
def encryptPassphrase (kdf : Kdf) (options : AuthOptions)
    (randomBytes : Except JsError (List (Fin 256))) (user : UserDoc) :
    HookOutcome :=
  if user.isNew = false ∧ user.isModifiedPassphrase = false then
    HookOutcome.done user
  else
    match user.passphrase with
    | none => HookOutcome.done user
    | some passphrase =>
      match randomBytes with
      | Except.error e => HookOutcome.error e user
      | Except.ok buf =>
        match pbkdf2 kdf passphrase (some (bytesToHex buf)) options with
        | Except.error e => HookOutcome.error e user
        | Except.ok hash =>
          HookOutcome.done
            { user with passphrase := some hash, salt := some (bytesToHex buf) }

/-- The `authenticate` instance method (src/auth.js lines 349-372): reject
with the missing-passphrase error when the argument is `undefined` or
`null`; otherwise re-derive the hash over the stored salt, propagate a
derivation error unchanged, reject with the incorrect-passphrase error when
the derived hash differs from the stored passphrase path, and resolve with
the user when it matches. -/
def authenticateMethod (kdf : Kdf) (options : AuthOptions) (user : UserDoc)
    (passphrase : JSVal) : Except JsError UserDoc :=
  match passphrase with
  | JSVal.undefined => Except.error (newError options.passphraseMissingError)
  | JSVal.null => Except.error (newError options.passphraseMissingError)
  | JSVal.str p =>
    match pbkdf2 kdf p user.salt options with
    | Except.error e => Except.error e
    | Except.ok hash =>
      if some hash = user.passphrase then Except.ok user
      else Except.error (newError options.passphraseIncorrectError)

/-- The `authenticationError` rejection handler of the `authenticate` static
(src/auth.js lines 322-333): a `CastError` on the username path becomes the
incorrect-username error; every other error passes through unchanged. -/
def authenticationError (options : AuthOptions) (e : JsError) : JsError :=
  if e.name = "CastError" ∧ e.path = some options.usernamePath then
    newError options.usernameIncorrectError
  else e

/-- The `authenticate` static (src/auth.js lines 295-334). `queryResult` is
what `query.exec()` delivers: an error (e.g. a mongoose `CastError`), or
`none` (no matching user), or the found document. An `undefined`/`null`
username is rejected before the query, outside the `authenticationError`
handler; the handler wraps the query and the instance method. -/
def authenticateStatic (kdf : Kdf) (options : AuthOptions)
    (queryResult : Except JsError (Option UserDoc))
    (username passphrase : JSVal) : Except JsError UserDoc :=
  match username with
  | JSVal.undefined => Except.error (newError options.usernameMissingError)
  | JSVal.null => Except.error (newError options.usernameMissingError)
  | JSVal.str _ =>
    let step : Except JsError UserDoc :=
      match queryResult with
      | Except.error e => Except.error e
      | Except.ok none =>
        Except.error (newError options.usernameIncorrectError)
      | Except.ok (some user) => authenticateMethod kdf options user passphrase
    match step with
    | Except.error e => Except.error (authenticationError options e)
    | Except.ok u => Except.ok u

/-- The mongoose required-path validation error raised by `validate` when a
required path (username, passphrase, salt; src/auth.js lines 97-107) is
unset after the pre-validate hooks. -/
def validationError : JsError :=
  { name := "ValidationError", path := none, message := "Validation failed" }

/-- `document.save()` as the plugin relies on it: run the pre-validate
`encryptPassphrase` hook, then the required-path validations, then persist
(the document is no longer new nor modified). -/
def saveDoc (kdf : Kdf) (options : AuthOptions)
    (randomBytes : Except JsError (List (Fin 256))) (user : UserDoc) :
    Except JsError UserDoc :=
  match encryptPassphrase kdf options randomBytes user with
  | HookOutcome.error e _ => Except.error e
  | HookOutcome.done u =>
    if u.username = none ∨ u.passphrase = none ∨ u.salt = none then
      Except.error validationError
    else Except.ok { u with isNew := false, isModifiedPassphrase := false }

/-- The `setPassphrase` instance method (src/auth.js lines 263-279, without
the `extra` argument, which touches no verified path): set the passphrase
path to the raw new value (marking it modified) and save. -/
def setPassphraseMethod (kdf : Kdf) (options : AuthOptions)
    (randomBytes : Except JsError (List (Fin 256))) (user : UserDoc)
    (passphrase : Option String) : Except JsError UserDoc :=
  saveDoc kdf options randomBytes
    { user with passphrase := passphrase, isModifiedPassphrase := true }

/-- The `setPassphrase` static (src/auth.js lines 230-245): authenticate
first; only on success run the instance `setPassphrase`; an authentication
error is rethrown unchanged. -/
def setPassphraseStatic (kdf : Kdf) (options : AuthOptions)
    (randomBytes : Except JsError (List (Fin 256)))
    (queryResult : Except JsError (Option UserDoc))
    (username passphrase : JSVal) (newPassphrase : Option String) :
    Except JsError UserDoc :=
  match authenticateStatic kdf options queryResult username passphrase with
  | Except.error e => Except.error e
  | Except.ok user =>
    setPassphraseMethod kdf options randomBytes user newPassphrase

/-! ### Helper lemmas about the hex encoding -/

theorem hexDigit_injective : ∀ a b : Fin 16, hexDigit a = hexDigit b → a = b := by
  decide

theorem hexChars_injective : ∀ bs1 bs2 : List (Fin 256),
    List.flatten (List.map byteToHex bs1) = List.flatten (List.map byteToHex bs2) →
    bs1 = bs2 := by
  intro bs1
  induction bs1 with
  | nil =>
    intro bs2 h
    cases bs2 with
    | nil => rfl
    | cons b bs => simp [byteToHex] at h
  | cons a as ih =>
    intro bs2 h
    cases bs2 with
    | nil => simp [byteToHex] at h
    | cons b bs =>
      simp only [List.map_cons, List.flatten_cons, byteToHex, List.cons_append,
        List.nil_append, List.cons.injEq] at h
      obtain ⟨h1, h2, h3⟩ := h
      have e1 := congrArg Fin.val (hexDigit_injective _ _ h1)
      have e2 := congrArg Fin.val (hexDigit_injective _ _ h2)
      simp only at e1 e2
      have hab : a = b := by
        have ha := a.isLt
        have hb := b.isLt
        apply Fin.ext
        omega
      rw [hab, ih bs h3]

theorem bytesToHex_injective (bs1 bs2 : List (Fin 256))
    (h : bytesToHex bs1 = bytesToHex bs2) : bs1 = bs2 :=
  hexChars_injective bs1 bs2 (congrArg String.data h)

/-! ### Concrete fixtures used by witnesses and counterexamples -/

/-- A concrete deterministic `Kdf`: one byte combining the lengths of the
passphrase and the salt. It exercises dependence on both inputs. -/
def kdfEx : Kdf := fun p s _ _ =>
  Except.ok
    [⟨(p.length + (match s with | none => 0 | some t => t.length)) % 256,
      by omega⟩]

/-- A `Kdf` whose underlying primitive always fails with the given error. -/
def kdfFailEx (e : JsError) : Kdf := fun _ _ _ _ => Except.error e

/-- A crypto-layer failure (e.g. entropy exhaustion). -/
def cryptoErrEx : JsError :=
  { name := "Error", path := none, message := "entropy exhausted" }

/-- A mongoose cast failure on the default username path. -/
def castErrEx : JsError :=
  { name := "CastError", path := some "username",
    message := "Cast to ObjectId failed" }

/-- A fresh new document carrying a raw passphrase, as built by `register`. -/
def c1User : UserDoc :=
  { username := some "tom", passphrase := some "pw", salt := none,
    isNew := true, isModifiedPassphrase := false }

/-- The random bytes drawn for the `c1User` run. -/
def c1Buf : List (Fin 256) := [1, 2]

/-- The document state after the pre-validate hook ran on `c1User` with
`c1Buf` and `kdfEx`. -/
def c1UserOut : UserDoc :=
  { username := some "tom", passphrase := some "06", salt := some "0102",
    isNew := true, isModifiedPassphrase := false }

/-- An existing (not new) document in the update flow: its passphrase path
was just set to a raw new passphrase, so the path is modified and the old
salt is still in place. -/
def updUser : UserDoc :=
  { username := some "tom", passphrase := some "pw", salt := some "ab",
    isNew := false, isModifiedPassphrase := true }

/-- The document state after the pre-validate hook ran on `updUser` with
`c1Buf` and `kdfEx`: a fresh pair replaces the old salt and hash. -/
def updUserOut : UserDoc :=
  { username := some "tom", passphrase := some "06", salt := some "0102",
    isNew := false, isModifiedPassphrase := true }

/-- The hook output for `updUser` under `saltOneOptions` with random
byte 1. -/
def updUserOut1 : UserDoc :=
  { username := some "tom", passphrase := some "04", salt := some "01",
    isNew := false, isModifiedPassphrase := true }

/-- A stored document whose passphrase path holds the `kdfEx` hash of
passphrase `"pw"` over salt `"ab"`. -/
def c2User : UserDoc :=
  { username := some "tom", passphrase := some "04", salt := some "ab",
    isNew := false, isModifiedPassphrase := false }

/-- A stored document whose hash matches no `kdfEx` output. -/
def c3User : UserDoc :=
  { username := some "tom", passphrase := some "zz", salt := some "ab",
    isNew := false, isModifiedPassphrase := false }

/-- A fresh new document whose passphrase path holds the empty string. -/
def c4User : UserDoc :=
  { username := some "tom", passphrase := some "", salt := none,
    isNew := true, isModifiedPassphrase := false }

/-- The document state after the hook ran on `c4User` with one random byte
and `kdfEx`: a (salt, hash) pair derived from the empty string. -/
def c4UserOut : UserDoc :=
  { username := some "tom", passphrase := some "02", salt := some "01",
    isNew := true, isModifiedPassphrase := false }

/-- A fresh new document whose passphrase path is unset (`undefined`). -/
def c4UserUndef : UserDoc :=
  { username := some "tom", passphrase := none, salt := none,
    isNew := true, isModifiedPassphrase := false }

/-- Options with a one-byte salt, for compact freshness witnesses. -/
def saltOneOptions : AuthOptions :=
  { defaultOptions with saltLen := 1 }

/-- The hook output for `c1User` under `saltOneOptions` with random byte 0. -/
def c6UserOut0 : UserDoc :=
  { username := some "tom", passphrase := some "04", salt := some "00",
    isNew := true, isModifiedPassphrase := false }

/-- The hook output for `c1User` under `saltOneOptions` with random byte 1. -/
def c6UserOut1 : UserDoc :=
  { username := some "tom", passphrase := some "04", salt := some "01",
    isNew := true, isModifiedPassphrase := false }

/-! ### Shared structural lemmas about the hook -/

/-- On a document that triggers credential setting (new, or existing with a
modified passphrase path) with a defined passphrase and successful random
bytes, a `done` outcome of the hook means the key derivation succeeded and
the resulting document carries exactly the new hash and the new salt. -/
theorem hook_stores_pair (kdf : Kdf) (options : AuthOptions)
    (user u2 : UserDoc) (buf : List (Fin 256)) (p : String)
    (htrig : user.isNew = true ∨ user.isModifiedPassphrase = true)
    (hpass : user.passphrase = some p)
    (hhook : encryptPassphrase kdf options (Except.ok buf) user =
      HookOutcome.done u2) :
    ∃ h, pbkdf2 kdf p (some (bytesToHex buf)) options = Except.ok h ∧
      u2 = { user with passphrase := some h, salt := some (bytesToHex buf) } := by
  unfold encryptPassphrase at hhook
  rw [if_neg (by rcases htrig with h | h <;> simp [h]), hpass] at hhook
  dsimp only [] at hhook
  cases hk : pbkdf2 kdf p (some (bytesToHex buf)) options with
  | error e =>
    rw [hk] at hhook
    exact absurd hhook (by simp)
  | ok h =>
    rw [hk] at hhook
    exact ⟨h, rfl, (HookOutcome.done.inj hhook).symm⟩

/-! ### Claim theorems -/

/-- Claim C1: for every non-empty passphrase P, when the pre-validate hook
produces a (salt, hash) pair from P via pbkdf2 over a fresh salt — on a new
document or on an existing one whose passphrase path is modified — verifying
P with the `authenticate` method against the stored salt and hash succeeds:
re-derivation with the same parameters yields the stored hash and the user
document is returned. -/
theorem set_then_authenticate_roundtrip (kdf : Kdf) (options : AuthOptions)
    (user u2 : UserDoc) (buf : List (Fin 256)) (p : String)
    (_hp : p ≠ "")
    (htrig : user.isNew = true ∨ user.isModifiedPassphrase = true)
    (hpass : user.passphrase = some p)
    (hhook : encryptPassphrase kdf options (Except.ok buf) user =
      HookOutcome.done u2) :
    u2.salt = some (bytesToHex buf) ∧
    (∃ h, u2.passphrase = some h ∧
      pbkdf2 kdf p u2.salt options = Except.ok h) ∧
    authenticateMethod kdf options u2 (JSVal.str p) = Except.ok u2 := by
  obtain ⟨h, hk, hu2⟩ :=
    hook_stores_pair kdf options user u2 buf p htrig hpass hhook
  subst hu2
  refine ⟨rfl, ⟨h, rfl, hk⟩, ?_⟩
  unfold authenticateMethod
  dsimp only []
  rw [hk]
  simp

/-- Claim C1 witness at a concrete update-flow run (existing document with
a modified passphrase path). -/
theorem set_then_authenticate_roundtrip_witness :
    updUserOut.salt = some (bytesToHex c1Buf) ∧
    (∃ h, updUserOut.passphrase = some h ∧
      pbkdf2 kdfEx "pw" updUserOut.salt defaultOptions = Except.ok h) ∧
    authenticateMethod kdfEx defaultOptions updUserOut (JSVal.str "pw") =
      Except.ok updUserOut :=
  set_then_authenticate_roundtrip kdfEx defaultOptions updUser updUserOut
    c1Buf "pw" (by decide) (Or.inr rfl) rfl rfl

/-- Claim C2: whenever the hash re-derivation succeeds, the `authenticate`
method returns the user exactly when the re-derived hash equals the stored
hash, and otherwise signals the incorrect-passphrase error. -/
theorem authenticate_iff_hash_matches (kdf : Kdf) (options : AuthOptions)
    (user : UserDoc) (p h : String)
    (hkdf : pbkdf2 kdf p user.salt options = Except.ok h) :
    authenticateMethod kdf options user (JSVal.str p) =
      (if user.passphrase = some h then Except.ok user
       else Except.error (newError options.passphraseIncorrectError)) := by
  unfold authenticateMethod
  dsimp only []
  rw [hkdf]
  dsimp only []
  by_cases hc : user.passphrase = some h
  · rw [if_pos hc.symm, if_pos hc]
  · rw [if_neg (fun hq => hc hq.symm), if_neg hc]

/-- Claim C2 witness at a concrete stored credential. -/
theorem authenticate_iff_hash_matches_witness :
    authenticateMethod kdfEx defaultOptions c2User (JSVal.str "pw") =
      (if c2User.passphrase = some "04" then Except.ok c2User
       else Except.error (newError defaultOptions.passphraseIncorrectError)) :=
  authenticate_iff_hash_matches kdfEx defaultOptions c2User "pw" "04" rfl

/-- Claim C3 counterexample: at a concrete stored credential, the
`authenticate` method called with the empty string fails with the
incorrect-passphrase error, which is a different error value than the
missing-passphrase one — refuting the claim that the empty string yields
the missing-passphrase error. -/
theorem authenticate_empty_passphrase_cx :
    authenticateMethod kdfEx defaultOptions c3User (JSVal.str "") =
      Except.error (newError "Incorrect passphrase") ∧
    newError "Incorrect passphrase" ≠ newError "Passphrase was not specified" :=
  ⟨rfl, by decide⟩

/-- Claim C3 amended: the missing-passphrase error is raised only for an
`undefined` or `null` passphrase argument; the empty string is treated as an
ordinary candidate, and when its re-derived hash differs from the stored
hash the method fails with the incorrect-passphrase error. -/
theorem authenticate_empty_passphrase_amended (kdf : Kdf)
    (options : AuthOptions) (user : UserDoc) (h : String)
    (hkdf : pbkdf2 kdf "" user.salt options = Except.ok h)
    (hne : user.passphrase ≠ some h) :
    authenticateMethod kdf options user (JSVal.str "") =
      Except.error (newError options.passphraseIncorrectError) ∧
    authenticateMethod kdf options user JSVal.undefined =
      Except.error (newError options.passphraseMissingError) ∧
    authenticateMethod kdf options user JSVal.null =
      Except.error (newError options.passphraseMissingError) := by
  refine ⟨?_, rfl, rfl⟩
  unfold authenticateMethod
  dsimp only []
  rw [hkdf]
  dsimp only []
  rw [if_neg (fun hq => hne hq.symm)]

/-- Claim C3 amended-theorem witness at a concrete stored credential. -/
theorem authenticate_empty_passphrase_amended_witness :
    authenticateMethod kdfEx defaultOptions c3User (JSVal.str "") =
      Except.error (newError defaultOptions.passphraseIncorrectError) ∧
    authenticateMethod kdfEx defaultOptions c3User JSVal.undefined =
      Except.error (newError defaultOptions.passphraseMissingError) ∧
    authenticateMethod kdfEx defaultOptions c3User JSVal.null =
      Except.error (newError defaultOptions.passphraseMissingError) :=
  authenticate_empty_passphrase_amended kdfEx defaultOptions c3User "02" rfl
    (by decide)

/-- Claim C4 counterexample: at a concrete run, the pre-validate hook on a
new document whose passphrase is the empty string completes without any
error and writes a (salt, hash) pair, and on a new document whose passphrase
is `undefined` it completes without any error at all — refuting the claim
that either case yields the missing-passphrase error with no pair
produced. -/
theorem set_credential_empty_cx :
    encryptPassphrase kdfEx defaultOptions (Except.ok [1]) c4User =
      HookOutcome.done c4UserOut ∧
    c4UserOut.salt = some "01" ∧ c4UserOut.passphrase = some "02" ∧
    encryptPassphrase kdfEx defaultOptions (Except.ok [1]) c4UserUndef =
      HookOutcome.done c4UserUndef :=
  ⟨rfl, rfl, rfl, rfl⟩

/-- Claim C4 amended: when the passphrase path is `undefined` at
credential-setting time the hook completes without error and without
writing a (salt, hash) pair (leaving the required-path validation to fail
later); when it is the empty string the hook treats it as a passphrase and
writes a (salt, hash) pair derived from it. The hook itself never raises
the missing-passphrase error. -/
theorem set_credential_empty_or_absent_amended (kdf : Kdf)
    (options : AuthOptions) (rnd : Except JsError (List (Fin 256)))
    (userU userE : UserDoc) (buf : List (Fin 256)) (h : String)
    (hU : userU.passphrase = none)
    (hE1 : userE.isNew = true) (hE2 : userE.passphrase = some "")
    (hkdf : pbkdf2 kdf "" (some (bytesToHex buf)) options = Except.ok h) :
    encryptPassphrase kdf options rnd userU = HookOutcome.done userU ∧
    encryptPassphrase kdf options (Except.ok buf) userE =
      HookOutcome.done
        { userE with passphrase := some h, salt := some (bytesToHex buf) } := by
  constructor
  · unfold encryptPassphrase
    by_cases hc : userU.isNew = false ∧ userU.isModifiedPassphrase = false
    · rw [if_pos hc]
    · rw [if_neg hc, hU]
  · unfold encryptPassphrase
    rw [if_neg (by simp [hE1]), hE2]
    dsimp only []
    rw [hkdf]

/-- Claim C4 amended-theorem witness at a concrete run. -/
theorem set_credential_empty_or_absent_amended_witness :
    encryptPassphrase kdfEx defaultOptions (Except.ok [1]) c4UserUndef =
      HookOutcome.done c4UserUndef ∧
    encryptPassphrase kdfEx defaultOptions (Except.ok [1]) c4User =
      HookOutcome.done
        { c4User with passphrase := some "02", salt := some (bytesToHex [1]) } :=
  set_credential_empty_or_absent_amended kdfEx defaultOptions
    (Except.ok [1]) c4UserUndef c4User [1] "02" rfl rfl rfl rfl

/-- Claim C5: salt and hash are always set together — every run of the
pre-validate hook either leaves both the passphrase path and the salt path
exactly as they were (any erroring run, and the no-op runs), or writes both
a new hash and the corresponding new salt in the same step; no run writes
one without the other. -/
theorem salt_and_hash_set_together (kdf : Kdf) (options : AuthOptions)
    (rnd : Except JsError (List (Fin 256))) (user : UserDoc) :
    match encryptPassphrase kdf options rnd user with
    | HookOutcome.done u2 =>
        (u2.passphrase = user.passphrase ∧ u2.salt = user.salt) ∨
        ∃ buf h, rnd = Except.ok buf ∧
          pbkdf2 kdf (user.passphrase.getD "") (some (bytesToHex buf))
            options = Except.ok h ∧
          u2.passphrase = some h ∧ u2.salt = some (bytesToHex buf)
    | HookOutcome.error _ u2 =>
        u2.passphrase = user.passphrase ∧ u2.salt = user.salt := by
  unfold encryptPassphrase
  by_cases hc : user.isNew = false ∧ user.isModifiedPassphrase = false
  · rw [if_pos hc]
    exact Or.inl ⟨rfl, rfl⟩
  · rw [if_neg hc]
    cases hp : user.passphrase with
    | none => exact Or.inl ⟨hp, rfl⟩
    | some p =>
      cases rnd with
      | error e => exact ⟨hp, rfl⟩
      | ok buf =>
        cases hk : pbkdf2 kdf p (some (bytesToHex buf)) options with
        | error e =>
          dsimp only []
          rw [hk]
          exact ⟨hp, rfl⟩
        | ok h =>
          dsimp only []
          rw [hk]
          exact Or.inr ⟨buf, h, rfl, hk, rfl, rfl⟩

/-- Claim C6: whenever the passphrase changes (the document is new, or the
passphrase path of an existing document is modified, with the passphrase
defined), the hook builds the salt from the freshly drawn random bytes of
the configured length, so two completed credential-setting runs whose
random draws differ store different salts, even for the same passphrase —
in particular a salt is never reused across updates. -/
theorem fresh_salt_per_credential_set (kdf : Kdf) (options : AuthOptions)
    (p : String) (user1 user2 u1 u2 : UserDoc) (buf1 buf2 : List (Fin 256))
    (_hlen1 : buf1.length = options.saltLen)
    (_hlen2 : buf2.length = options.saltLen)
    (h1trig : user1.isNew = true ∨ user1.isModifiedPassphrase = true)
    (h1p : user1.passphrase = some p)
    (h2trig : user2.isNew = true ∨ user2.isModifiedPassphrase = true)
    (h2p : user2.passphrase = some p)
    (hh1 : encryptPassphrase kdf options (Except.ok buf1) user1 =
      HookOutcome.done u1)
    (hh2 : encryptPassphrase kdf options (Except.ok buf2) user2 =
      HookOutcome.done u2)
    (hne : buf1 ≠ buf2) :
    u1.salt = some (bytesToHex buf1) ∧ u2.salt = some (bytesToHex buf2) ∧
    u1.salt ≠ u2.salt := by
  obtain ⟨h1, _, hu1⟩ :=
    hook_stores_pair kdf options user1 u1 buf1 p h1trig h1p hh1
  obtain ⟨h2, _, hu2⟩ :=
    hook_stores_pair kdf options user2 u2 buf2 p h2trig h2p hh2
  subst hu1
  subst hu2
  refine ⟨rfl, rfl, fun hsalt => hne ?_⟩
  exact bytesToHex_injective buf1 buf2 (Option.some.inj hsalt)

/-- Claim C6 witness: two concrete runs with distinct one-byte draws and
the same passphrase, one on a new document and one on an existing document
in the update flow. -/
theorem fresh_salt_per_credential_set_witness :
    c6UserOut0.salt = some (bytesToHex [0]) ∧
    updUserOut1.salt = some (bytesToHex [1]) ∧
    c6UserOut0.salt ≠ updUserOut1.salt :=
  fresh_salt_per_credential_set kdfEx saltOneOptions "pw" c1User updUser
    c6UserOut0 updUserOut1 [0] [1] rfl rfl (Or.inl rfl) rfl (Or.inr rfl) rfl
    rfl rfl (by decide)

/-- Claim C7: for an existing (not new) document whose passphrase path is
unmodified, the pre-validate hook completes successfully without error and
returns the document unchanged, whatever the crypto environment does. -/
theorem unchanged_passphrase_update_noop (kdf : Kdf) (options : AuthOptions)
    (rnd : Except JsError (List (Fin 256))) (user : UserDoc)
    (hnew : user.isNew = false) (hmod : user.isModifiedPassphrase = false) :
    encryptPassphrase kdf options rnd user = HookOutcome.done user := by
  unfold encryptPassphrase
  rw [if_pos ⟨hnew, hmod⟩]

/-- Claim C7 witness: a stored, unmodified document passes through even
when the crypto layer would fail. -/
theorem unchanged_passphrase_update_noop_witness :
    encryptPassphrase (kdfFailEx cryptoErrEx) defaultOptions
      (Except.error cryptoErrEx) c2User = HookOutcome.done c2User :=
  unchanged_passphrase_update_noop (kdfFailEx cryptoErrEx) defaultOptions
    (Except.error cryptoErrEx) c2User rfl rfl

/-- Claim C8: a failure of the random-byte generation or of the key
derivation during credential setting (on a new document or on an existing
one whose passphrase path is modified), and a failure of the key derivation
during verification, is propagated unchanged to the operation's callback or
rejected promise, with no retry and with no salt or hash written (the
document in the erroring outcome is the untouched one). -/
theorem crypto_failure_propagates (kdf : Kdf) (options : AuthOptions)
    (user : UserDoc) (p : String) (buf : List (Fin 256)) (e : JsError)
    (htrig : user.isNew = true ∨ user.isModifiedPassphrase = true)
    (hpass : user.passphrase = some p)
    (hkdf1 : pbkdf2 kdf p (some (bytesToHex buf)) options = Except.error e)
    (hkdf2 : pbkdf2 kdf p user.salt options = Except.error e) :
    encryptPassphrase kdf options (Except.error e) user =
      HookOutcome.error e user ∧
    encryptPassphrase kdf options (Except.ok buf) user =
      HookOutcome.error e user ∧
    authenticateMethod kdf options user (JSVal.str p) = Except.error e := by
  refine ⟨?_, ?_, ?_⟩
  · unfold encryptPassphrase
    rw [if_neg (by rcases htrig with h | h <;> simp [h]), hpass]
  · unfold encryptPassphrase
    rw [if_neg (by rcases htrig with h | h <;> simp [h]), hpass]
    dsimp only []
    rw [hkdf1]
  · unfold authenticateMethod
    dsimp only []
    rw [hkdf2]

/-- Claim C8 witness: a concrete existing document in the update flow with
an always-failing crypto layer. -/
theorem crypto_failure_propagates_witness :
    encryptPassphrase (kdfFailEx cryptoErrEx) defaultOptions
      (Except.error cryptoErrEx) updUser =
      HookOutcome.error cryptoErrEx updUser ∧
    encryptPassphrase (kdfFailEx cryptoErrEx) defaultOptions
      (Except.ok [1]) updUser = HookOutcome.error cryptoErrEx updUser ∧
    authenticateMethod (kdfFailEx cryptoErrEx) defaultOptions updUser
      (JSVal.str "pw") = Except.error cryptoErrEx :=
  crypto_failure_propagates (kdfFailEx cryptoErrEx) defaultOptions updUser
    "pw" [1] cryptoErrEx (Or.inr rfl) rfl rfl rfl

/-- Claim C9: the `setPassphrase` static updates the passphrase only after
`authenticate` succeeds — when authentication fails (missing or unknown
username, or incorrect old passphrase), the static rejects with that very
error and performs no save, so the stored salt and hash are untouched. -/
theorem set_passphrase_only_after_auth (kdf : Kdf) (options : AuthOptions)
    (rnd : Except JsError (List (Fin 256)))
    (queryResult : Except JsError (Option UserDoc))
    (username passphrase : JSVal) (newPassphrase : Option String)
    (e : JsError)
    (hauth : authenticateStatic kdf options queryResult username passphrase =
      Except.error e) :
    setPassphraseStatic kdf options rnd queryResult username passphrase
      newPassphrase = Except.error e := by
  unfold setPassphraseStatic
  rw [hauth]

/-- Claim C9 witness: the unknown-username failure is propagated and no
document is saved. -/
theorem set_passphrase_only_after_auth_witness :
    setPassphraseStatic kdfEx defaultOptions (Except.ok [1])
      (Except.ok none) (JSVal.str "tom") (JSVal.str "pw") (some "new") =
      Except.error (newError "Unknown username") :=
  set_passphrase_only_after_auth kdfEx defaultOptions (Except.ok [1])
    (Except.ok none) (JSVal.str "tom") (JSVal.str "pw") (some "new")
    (newError "Unknown username") rfl

/-- Claim C10: in the `authenticate` static, a `CastError` on the username
path coming from the query is converted into exactly the incorrect-username
error also used for a non-existent user, so the two are indistinguishable
to callers; any other error passes through unchanged. -/
theorem cast_error_is_unknown_username (kdf : Kdf) (options : AuthOptions)
    (un : String) (passphrase : JSVal) (e e2 : JsError)
    (hc : e.name = "CastError") (hp : e.path = some options.usernamePath)
    (h2 : ¬(e2.name = "CastError" ∧ e2.path = some options.usernamePath)) :
    authenticateStatic kdf options (Except.error e) (JSVal.str un)
      passphrase = Except.error (newError options.usernameIncorrectError) ∧
    authenticateStatic kdf options (Except.ok none) (JSVal.str un)
      passphrase = Except.error (newError options.usernameIncorrectError) ∧
    authenticateStatic kdf options (Except.error e2) (JSVal.str un)
      passphrase = Except.error e2 := by
  refine ⟨?_, ?_, ?_⟩
  · unfold authenticateStatic
    dsimp only []
    unfold authenticationError
    rw [if_pos ⟨hc, hp⟩]
  · unfold authenticateStatic
    dsimp only []
    unfold authenticationError
    rw [if_neg (by simp [newError])]
  · unfold authenticateStatic
    dsimp only []
    unfold authenticationError
    rw [if_neg h2]

/-- Claim C10 witness: a concrete cast failure, the no-user case and an
unrelated error. -/
theorem cast_error_is_unknown_username_witness :
    authenticateStatic kdfEx defaultOptions (Except.error castErrEx)
      (JSVal.str "x") (JSVal.str "pw") =
      Except.error (newError defaultOptions.usernameIncorrectError) ∧
    authenticateStatic kdfEx defaultOptions (Except.ok none)
      (JSVal.str "x") (JSVal.str "pw") =
      Except.error (newError defaultOptions.usernameIncorrectError) ∧
    authenticateStatic kdfEx defaultOptions (Except.error cryptoErrEx)
      (JSVal.str "x") (JSVal.str "pw") = Except.error cryptoErrEx :=
  cast_error_is_unknown_username kdfEx defaultOptions "x" (JSVal.str "pw")
    castErrEx cryptoErrEx rfl rfl (by decide)
